import Mathlib

/-!
Shallow embedding of the tev_client crate (src/lib.rs): the packet model,
the binary encoder with its length-prefixed framing, and the line scan used
by address discovery.

Modelling conventions:
* a byte is a natural number below 256, a buffer is a `List Nat`;
* Rust `u32`/`u64` fields are natural numbers; the encoders reduce modulo
  2^32 / 2^64 exactly where the code casts (`as u32`) or serialises;
* an `f32` datum is represented by its 32-bit IEEE-754 bit pattern, since
  `f32::to_le_bytes` only moves the bits, never computes with them;
* Rust strings are their UTF-8 byte lists;
* the encoder's assertion failures (panics) are modelled as `Except`
  errors: a panicking `send` hands no bytes to the socket.
-/

/-- Little-endian bytes of the low 32 bits of a natural number, as produced
by `u32::to_le_bytes`; reducing modulo 2^32 models the `as u32` casts. -/
def u32le (n : Nat) : List Nat :=
  [n % 256, n / 256 % 256, n / 65536 % 256, n / 16777216 % 256]

/-- Little-endian bytes of the low 64 bits of a natural number, as produced
by `u64::to_le_bytes`. -/
def u64le (n : Nat) : List Nat :=
  [n % 256, n / 256 % 256, n / 65536 % 256, n / 16777216 % 256,
   n / 4294967296 % 256, n / 1099511627776 % 256,
   n / 281474976710656 % 256, n / 72057594037927936 % 256]

/-- Reads four bytes as a little-endian 32-bit value (0 on a wrong shape). -/
def u32leDecode (l : List Nat) : Nat :=
  match l with
  | [a, b, c, d] => a + 256 * b + 65536 * c + 16777216 * d
  | _ => 0

/-- The ways encoding can fail. The source panics with a message; the spec
names the string failure `InvalidString` and the structural `UpdateImage`
failures `InvalidPacket`. -/
inductive EncodeError where
  | invalidString
  | invalidPacket
deriving DecidableEq, Repr

/-- Appends one raw byte (`Vec::push`). -/
def writeByte (w : List Nat) (b : Nat) : List Nat := w ++ [b]

/-- Appends a `bool` as one byte, `impl TevWritable for bool`. -/
def writeBool (w : List Nat) (b : Bool) : List Nat :=
  w ++ [if b then 1 else 0]

/-- Appends a `u32` little-endian, `impl TevWritable for u32`. -/
def writeU32 (w : List Nat) (n : Nat) : List Nat := w ++ u32le n

/-- Appends a `u64` little-endian, `impl TevWritable for u64`. -/
def writeU64 (w : List Nat) (n : Nat) : List Nat := w ++ u64le n

/-- Appends an `f32` little-endian, `impl TevWritable for f32`; the argument
is the 32-bit pattern of the float. -/
def writeF32 (w : List Nat) (bits : Nat) : List Nat := w ++ u32le bits

/-- Appends a string's UTF-8 bytes plus a 0 terminator,
`impl TevWritable for &str`; the null check precedes any append, and a
string holding a 0 byte panics (modelled as `invalidString`). -/
def writeStr (w : List Nat) (s : List Nat) : Except EncodeError (List Nat) :=
  if 0 ∈ s then .error .invalidString else .ok (w ++ s ++ [0])

/-- Writes each string of a sequence in order, `TevWriter::write_all`
over string items; the first failing item aborts the loop. -/
def writeStrAll (w : List Nat) :
    List (List Nat) → Except EncodeError (List Nat)
  | [] => .ok w
  | s :: rest =>
    match writeStr w s with
    | .error e => .error e
    | .ok w2 => writeStrAll w2 rest

/-- Writes each `u64` of a sequence in order, `TevWriter::write_all`. -/
def writeU64All (w : List Nat) (l : List Nat) : List Nat :=
  l.foldl writeU64 w

/-- Writes each `f32` of a sequence in order, `TevWriter::write_all`. -/
def writeF32All (w : List Nat) (l : List Nat) : List Nat :=
  l.foldl writeF32 w

/-- The `PacketType` enum with its fixed discriminants. -/
inductive PacketType where
  | reloadImage
  | closeImage
  | createImage
  | updateImageV3
  | openImageV2
deriving DecidableEq, Repr

/-- Discriminant byte of a `PacketType` (`self as u8`). -/
def PacketType.toByte : PacketType → Nat
  | .reloadImage => 1
  | .closeImage => 2
  | .createImage => 4
  | .updateImageV3 => 6
  | .openImageV2 => 7

/-- Appends a `PacketType` as its discriminant byte,
`impl TevWritable for PacketType`. -/
def writePacketType (w : List Nat) (t : PacketType) : List Nat :=
  w ++ [t.toByte]

/-- Mirror of `PacketOpenImage`; strings are UTF-8 byte lists. -/
structure PacketOpenImage where
  image_name : List Nat
  grab_focus : Bool
  channel_selector : List Nat
deriving DecidableEq, Repr

/-- Mirror of `PacketReloadImage`. -/
structure PacketReloadImage where
  image_name : List Nat
  grab_focus : Bool
deriving DecidableEq, Repr

/-- Mirror of `PacketCloseImage`. -/
structure PacketCloseImage where
  image_name : List Nat
deriving DecidableEq, Repr

/-- Mirror of `PacketCreateImage`; `width` and `height` are `u32` values. -/
structure PacketCreateImage where
  image_name : List Nat
  grab_focus : Bool
  width : Nat
  height : Nat
  channel_names : List (List Nat)
deriving DecidableEq, Repr

/-- Mirror of `PacketUpdateImage`; offsets and strides are `u64` values and
each `data` element is the bit pattern of an `f32`. -/
structure PacketUpdateImage where
  image_name : List Nat
  grab_focus : Bool
  channel_names : List (List Nat)
  channel_offsets : List Nat
  channel_strides : List Nat
  x : Nat
  y : Nat
  width : Nat
  height : Nat
  data : List Nat
deriving DecidableEq, Repr

/-- Encoder of `PacketOpenImage::write_to`: opcode, grab_focus, image_name,
channel_selector. -/
def PacketOpenImage.write_to (p : PacketOpenImage) (w : List Nat) :
    Except EncodeError (List Nat) :=
  match writeStr (writeBool (writePacketType w .openImageV2) p.grab_focus)
      p.image_name with
  | .error e => .error e
  | .ok w1 => writeStr w1 p.channel_selector

/-- Encoder of `PacketReloadImage::write_to`: opcode, grab_focus,
image_name. -/
def PacketReloadImage.write_to (p : PacketReloadImage) (w : List Nat) :
    Except EncodeError (List Nat) :=
  writeStr (writeBool (writePacketType w .reloadImage) p.grab_focus)
    p.image_name

/-- Encoder of `PacketCloseImage::write_to`: opcode, image_name. -/
def PacketCloseImage.write_to (p : PacketCloseImage) (w : List Nat) :
    Except EncodeError (List Nat) :=
  writeStr (writePacketType w .closeImage) p.image_name

/-- Encoder of `PacketCreateImage::write_to`: opcode, grab_focus,
image_name, width, height, channel count (`len as u32`), channel names. -/
def PacketCreateImage.write_to (p : PacketCreateImage) (w : List Nat) :
    Except EncodeError (List Nat) :=
  match writeStr (writeBool (writePacketType w .createImage) p.grab_focus)
      p.image_name with
  | .error e => .error e
  | .ok w1 =>
    writeStrAll (writeU32 (writeU32 (writeU32 w1 p.width) p.height)
      p.channel_names.length) p.channel_names

/-- The `max_data_index_used` value of `PacketUpdateImage::write_to`:
largest data index addressed by any channel
(`zip` of offsets and strides, `o + (pixel_count - 1) * s`, maximum). -/
def maxDataIndexUsed (p : PacketUpdateImage) : Nat :=
  ((p.channel_offsets.zip p.channel_strides).map
    (fun os => os.1 + (p.width * p.height - 1) * os.2)).foldl Nat.max 0

/-- Encoder of `PacketUpdateImage::write_to`: the four assertions run in
source order before any byte is appended, then the fields are written as
opcode, grab_focus, image_name, channel count, channel names, x, y, width,
height, channel offsets, channel strides, data. -/
def PacketUpdateImage.write_to (p : PacketUpdateImage) (w : List Nat) :
    Except EncodeError (List Nat) :=
  if p.channel_names.length = 0 then .error .invalidPacket
  else if p.channel_offsets.length ≠ p.channel_names.length then
    .error .invalidPacket
  else if p.channel_strides.length ≠ p.channel_names.length then
    .error .invalidPacket
  else if p.width * p.height = 0 then .error .invalidPacket
  else if maxDataIndexUsed p + 1 ≠ p.data.length then .error .invalidPacket
  else
    match writeStr (writeBool (writePacketType w .updateImageV3)
        p.grab_focus) p.image_name with
    | .error e => .error e
    | .ok w1 =>
      match writeStrAll (writeU32 w1 p.channel_names.length)
          p.channel_names with
      | .error e => .error e
      | .ok w2 =>
        .ok (writeF32All (writeU64All (writeU64All
          (writeU32 (writeU32 (writeU32 (writeU32 w2 p.x) p.y) p.width)
            p.height)
          p.channel_offsets) p.channel_strides) p.data)

/-- The closed set of commands accepted by `TevClient::send`
(the five `TevPacket` implementations). -/
inductive TevPacket where
  | openImage (p : PacketOpenImage)
  | reloadImage (p : PacketReloadImage)
  | closeImage (p : PacketCloseImage)
  | createImage (p : PacketCreateImage)
  | updateImage (p : PacketUpdateImage)
deriving DecidableEq, Repr

/-- Dispatch of `TevPacket::write_to` over the variants. -/
def TevPacket.write_to (p : TevPacket) (w : List Nat) :
    Except EncodeError (List Nat) :=
  match p with
  | .openImage q => q.write_to w
  | .reloadImage q => q.write_to w
  | .closeImage q => q.write_to w
  | .createImage q => q.write_to w
  | .updateImage q => q.write_to w

/-- Opcode byte of a packet variant. -/
def TevPacket.opcode : TevPacket → Nat
  | .openImage _ => PacketType.openImageV2.toByte
  | .reloadImage _ => PacketType.reloadImage.toByte
  | .closeImage _ => PacketType.closeImage.toByte
  | .createImage _ => PacketType.createImage.toByte
  | .updateImage _ => PacketType.updateImageV3.toByte

/-- The framing of `TevClient::send`: reserve four zero bytes, encode the
packet, overwrite the reserved bytes with the buffer length cast
`as u32` (reduction modulo 2^32) in little-endian, and hand the whole
buffer to the socket. The returned list is the byte sequence written to
the stream; an error means nothing reaches the stream. -/
def TevClient.send (p : TevPacket) : Except EncodeError (List Nat) :=
  (p.write_to [0, 0, 0, 0]).map
    (fun v => u32le (v.length % 4294967296) ++ v.drop 4)

/-- Bytes written to the stream by a successful `send` ([] on failure). -/
def sentBytes (p : TevPacket) : List Nat :=
  match TevClient.send p with
  | .ok v => v
  | .error _ => []

/-- First pattern scanned for by `TevClient::spawn`. -/
def patternIPC : String := "Initialized IPC, listening on "

/-- Second pattern scanned for by `TevClient::spawn`. -/
def patternPrimary : String := "Connected to primary instance at "

/-- The `PATTERNS` constant of `TevClient::spawn`, as character lists. -/
def spawnPatterns : List (List Char) :=
  [patternIPC.toList, patternPrimary.toList]

/-- The terminal escape character cut from the end of a host, `0x1B`. -/
def escapeChar : Char := Char.ofNat 27

/-- The newline appended after each non-matching line, `read.push` of a
line feed. -/
def newlineChar : Char := Char.ofNat 10

/-- Index of the first occurrence of `pat` in a character list, mirroring
Rust `str::find` on a substring pattern. -/
def findSub (pat : List Char) : List Char → Option Nat
  | [] => if pat.isPrefixOf ([] : List Char) then some 0 else none
  | c :: t =>
    if pat.isPrefixOf (c :: t) then some 0
    else (findSub pat t).map (fun i => i + 1)

/-- The inner pattern loop of `TevClient::spawn`: on the first pattern
occurring in the line, takes the rest of the line after the pattern and
cuts it at the first terminal escape character. -/
def findHostInLine (line : List Char) :
    List (List Char) → Option (List Char)
  | [] => none
  | pat :: rest =>
    match findSub pat line with
    | some start =>
      let r := line.drop (start + pat.length)
      some (r.take ((findSub [escapeChar] r).getD r.length))
    | none => findHostInLine line rest

/-- Result of the address-discovery scan of `TevClient::spawn`:
either a host to connect the socket to, or the `NoSocketResponse` error
(the spec's `NoAddressFound`) carrying everything read so far. -/
inductive SpawnOutcome where
  | connectTo (host : List Char)
  | noSocketResponse (read : List Char)
deriving DecidableEq, Repr

/-- The line loop of `TevClient::spawn`: accumulates non-matching lines
(each followed by a newline) into `read` and fails with the accumulated
text when the lines run out. -/
def spawnLoop : List Char → List (List Char) → SpawnOutcome
  | read, [] => .noSocketResponse read
  | read, line :: rest =>
    match findHostInLine line spawnPatterns with
    | some host => .connectTo host
    | none => spawnLoop (read ++ line ++ [newlineChar]) rest

/-- Address discovery of `TevClient::spawn`, abstracted over the lines the
spawned process wrote to its standard output before closing it. -/
def TevClient.spawn (lines : List (List Char)) : SpawnOutcome :=
  spawnLoop [] lines

/-- Reads a null-terminated string off the front of a byte list, returning
the string bytes and the remainder; decoding side of the wire format's
string layout (spec section 6). -/
def parseCStr : List Nat → Option (List Nat × List Nat)
  | [] => none
  | b :: rest =>
    if b = 0 then some ([], rest)
    else (parseCStr rest).map (fun pr => (b :: pr.1, pr.2))

/-- Reads a little-endian u32 off the front of a byte list. -/
def parseU32 : List Nat → Option (Nat × List Nat)
  | b0 :: b1 :: b2 :: b3 :: rest =>
    some (b0 + 256 * b1 + 65536 * b2 + 16777216 * b3, rest)
  | _ => none

/-- Reads `n` null-terminated strings off the front of a byte list. -/
def parseCStrs : Nat → List Nat → Option (List (List Nat) × List Nat)
  | 0, l => some ([], l)
  | n + 1, l =>
    match parseCStr l with
    | none => none
    | some (s, rest) => (parseCStrs n rest).map (fun pr => (s :: pr.1, pr.2))

/-- Decoder for the CreateImage payload (the bytes after the opcode),
following the spec's layout table: grab_focus bool, null-terminated
image_name, width u32, height u32, channel_count u32, then channel_count
null-terminated channel names. Returns the decoded packet and the
leftover bytes. -/
def decodeCreateImagePayload (l : List Nat) :
    Option (PacketCreateImage × List Nat) :=
  match l with
  | [] => none
  | b :: r0 =>
    match parseCStr r0 with
    | none => none
    | some (name, r1) =>
      match parseU32 r1 with
      | none => none
      | some (width, r2) =>
        match parseU32 r2 with
        | none => none
        | some (height, r3) =>
          match parseU32 r3 with
          | none => none
          | some (count, r4) =>
            match parseCStrs count r4 with
            | none => none
            | some (names, r5) => some (⟨name, b != 0, width, height, names⟩, r5)

/-- Payload of an encoded CreateImage packet: the bytes its encoder
produces after the opcode ([] when encoding fails). -/
def createImagePayload (p : PacketCreateImage) : List Nat :=
  match p.write_to [] with
  | .ok v => v.drop 1
  | .error _ => []

/-- A data slice of 2^30 zero f32 values (2^32 bytes once encoded). -/
def bigData : List Nat := List.replicate 1073741824 0

/-- An UpdateImage packet whose frame is longer than 2^32 bytes: one
channel named "R" over a 32768 x 32768 region, one f32 per pixel
(2^30 data elements, hence 2^32 bytes of pixel data alone). -/
def bigUpdateImage : PacketUpdateImage :=
  ⟨[97], false, [[82]], [0], [1], 0, 0, 32768, 32768, bigData⟩

/-- The buffer `bigUpdateImage` encodes to, reserved length bytes
included: 46 + 2^32 = 4294967342 bytes. -/
def bigUpdateBody : List Nat :=
  [0, 0, 0, 0] ++ [6] ++ [0] ++ [97] ++ [0] ++ u32le 1 ++ [82, 0] ++
  u32le 0 ++ u32le 0 ++ u32le 32768 ++ u32le 32768 ++ u64le 0 ++ u64le 1 ++
  (bigData.map u32le).flatten

/-- The frame send writes for `bigUpdateImage`: the patched length prefix
(46, the true length 4294967342 reduced modulo 2^32) followed by the body
after its four reserved bytes. -/
def bigFrame : List Nat := u32le 46 ++ bigUpdateBody.drop 4

/-! Helper lemmas about the write primitives and byte arithmetic. -/

theorem u32leDecode_u32le (n : Nat) :
    u32leDecode (u32le n) = n % 4294967296 := by
  simp [u32le, u32leDecode]
  omega

theorem writeStr_eq_ok (w s : List Nat) (h : ¬ 0 ∈ s) :
    writeStr w s = .ok (w ++ s ++ [0]) := by
  simp [writeStr, h]

theorem writeStr_eq_err (w s : List Nat) (h : 0 ∈ s) :
    writeStr w s = .error .invalidString := by
  simp [writeStr, h]

theorem writeStrAll_eq_ok : ∀ (l : List (List Nat)) (w : List Nat),
    (∀ s ∈ l, ¬ 0 ∈ s) →
    writeStrAll w l = .ok (w ++ (l.map (fun s => s ++ [0])).flatten) := by
  intro l
  induction l with
  | nil => intro w _; simp [writeStrAll]
  | cons s rest ih =>
    intro w h
    have hs : ¬ 0 ∈ s := h s (by simp)
    have hr : ∀ t ∈ rest, ¬ 0 ∈ t := fun t ht => h t (by simp [ht])
    simp [writeStrAll, writeStr_eq_ok w s hs, ih _ hr, List.append_assoc]

theorem writeStrAll_eq_err : ∀ (l : List (List Nat)) (w : List Nat),
    (∃ s ∈ l, 0 ∈ s) → writeStrAll w l = .error .invalidString := by
  intro l
  induction l with
  | nil => intro w h; simp at h
  | cons s rest ih =>
    intro w h
    by_cases hs : 0 ∈ s
    · simp [writeStrAll, writeStr_eq_err w s hs]
    · have hr : ∃ t ∈ rest, 0 ∈ t := by
        obtain ⟨t, ht, ht0⟩ := h
        rcases List.mem_cons.mp ht with rfl | ht2
        · exact absurd ht0 hs
        · exact ⟨t, ht2, ht0⟩
      simp [writeStrAll, writeStr_eq_ok w s hs, ih _ hr]

theorem writeStrAll_ok_inv : ∀ (l : List (List Nat)) (w v : List Nat),
    writeStrAll w l = .ok v →
    (∀ s ∈ l, ¬ 0 ∈ s) ∧ v = w ++ (l.map (fun s => s ++ [0])).flatten := by
  intro l
  induction l with
  | nil =>
    intro w v h
    simp [writeStrAll] at h
    simp [h]
  | cons s rest ih =>
    intro w v h
    by_cases hs : 0 ∈ s
    · simp [writeStrAll, writeStr_eq_err w s hs] at h
    · simp only [writeStrAll, writeStr_eq_ok w s hs] at h
      obtain ⟨h1, h2⟩ := ih _ _ h
      refine ⟨?_, ?_⟩
      · intro t ht
        rcases List.mem_cons.mp ht with rfl | ht2
        · exact hs
        · exact h1 t ht2
      · simp [h2, List.append_assoc]

theorem writeU64All_eq : ∀ (l : List Nat) (w : List Nat),
    writeU64All w l = w ++ (l.map u64le).flatten := by
  intro l
  induction l with
  | nil => intro w; simp [writeU64All]
  | cons x t ih =>
    intro w
    have hstep : writeU64All w (x :: t) = writeU64All (writeU64 w x) t := rfl
    rw [hstep, ih, writeU64]
    simp [List.append_assoc]

theorem writeF32All_eq : ∀ (l : List Nat) (w : List Nat),
    writeF32All w l = w ++ (l.map u32le).flatten := by
  intro l
  induction l with
  | nil => intro w; simp [writeF32All]
  | cons x t ih =>
    intro w
    have hstep : writeF32All w (x :: t) = writeF32All (writeF32 w x) t := rfl
    rw [hstep, ih, writeF32]
    simp [List.append_assoc]

theorem flatten_u64le_length (l : List Nat) :
    ((l.map u64le).flatten).length = 8 * l.length := by
  induction l with
  | nil => simp
  | cons x t ih =>
    simp [u64le, ih]
    omega

theorem flatten_u32le_length (l : List Nat) :
    ((l.map u32le).flatten).length = 4 * l.length := by
  induction l with
  | nil => simp
  | cons x t ih =>
    simp [u32le, ih]
    omega

/-! Explicit byte-sequence forms of each variant's encoder on valid input,
and inversions recovering the validity conditions from a success. -/

theorem openImage_write_eq (p : PacketOpenImage) (w : List Nat)
    (h1 : ¬ 0 ∈ p.image_name) (h2 : ¬ 0 ∈ p.channel_selector) :
    p.write_to w = .ok (w ++ [7] ++ [if p.grab_focus then 1 else 0] ++
      p.image_name ++ [0] ++ p.channel_selector ++ [0]) := by
  simp [PacketOpenImage.write_to, writePacketType, writeBool,
    PacketType.toByte, writeStr_eq_ok _ _ h1, writeStr_eq_ok _ _ h2,
    List.append_assoc]

theorem reloadImage_write_eq (p : PacketReloadImage) (w : List Nat)
    (h1 : ¬ 0 ∈ p.image_name) :
    p.write_to w = .ok (w ++ [1] ++ [if p.grab_focus then 1 else 0] ++
      p.image_name ++ [0]) := by
  simp [PacketReloadImage.write_to, writePacketType, writeBool,
    PacketType.toByte, writeStr_eq_ok _ _ h1, List.append_assoc]

theorem closeImage_write_eq (p : PacketCloseImage) (w : List Nat)
    (h1 : ¬ 0 ∈ p.image_name) :
    p.write_to w = .ok (w ++ [2] ++ p.image_name ++ [0]) := by
  simp [PacketCloseImage.write_to, writePacketType, PacketType.toByte,
    writeStr_eq_ok _ _ h1, List.append_assoc]

theorem createImage_write_eq (p : PacketCreateImage) (w : List Nat)
    (h1 : ¬ 0 ∈ p.image_name) (h2 : ∀ s ∈ p.channel_names, ¬ 0 ∈ s) :
    p.write_to w = .ok (w ++ [4] ++ [if p.grab_focus then 1 else 0] ++
      p.image_name ++ [0] ++ u32le p.width ++ u32le p.height ++
      u32le p.channel_names.length ++
      (p.channel_names.map (fun s => s ++ [0])).flatten) := by
  simp [PacketCreateImage.write_to, writePacketType, writeBool, writeU32,
    PacketType.toByte, writeStr_eq_ok _ _ h1, writeStrAll_eq_ok _ _ h2,
    List.append_assoc]

theorem updateImage_write_eq (p : PacketUpdateImage) (w : List Nat)
    (g1 : p.channel_names.length ≠ 0)
    (g2 : p.channel_offsets.length = p.channel_names.length)
    (g3 : p.channel_strides.length = p.channel_names.length)
    (g4 : p.width * p.height ≠ 0)
    (g5 : maxDataIndexUsed p + 1 = p.data.length)
    (h1 : ¬ 0 ∈ p.image_name) (h2 : ∀ s ∈ p.channel_names, ¬ 0 ∈ s) :
    p.write_to w = .ok (w ++ [6] ++ [if p.grab_focus then 1 else 0] ++
      p.image_name ++ [0] ++ u32le p.channel_names.length ++
      (p.channel_names.map (fun s => s ++ [0])).flatten ++
      u32le p.x ++ u32le p.y ++ u32le p.width ++ u32le p.height ++
      (p.channel_offsets.map u64le).flatten ++
      (p.channel_strides.map u64le).flatten ++
      (p.data.map u32le).flatten) := by
  simp [PacketUpdateImage.write_to, g1, g2, g3, g4, g5, writePacketType,
    writeBool, writeU32, PacketType.toByte, writeStr_eq_ok _ _ h1,
    writeStrAll_eq_ok _ _ h2, writeU64All_eq, writeF32All_eq,
    List.append_assoc]

theorem updateImage_ok_inv (p : PacketUpdateImage) (w v : List Nat)
    (h : p.write_to w = .ok v) :
    p.channel_names.length ≠ 0 ∧
    p.channel_offsets.length = p.channel_names.length ∧
    p.channel_strides.length = p.channel_names.length ∧
    p.width * p.height ≠ 0 ∧
    maxDataIndexUsed p + 1 = p.data.length ∧
    ¬ 0 ∈ p.image_name ∧ (∀ s ∈ p.channel_names, ¬ 0 ∈ s) ∧
    v = w ++ [6] ++ [if p.grab_focus then 1 else 0] ++
      p.image_name ++ [0] ++ u32le p.channel_names.length ++
      (p.channel_names.map (fun s => s ++ [0])).flatten ++
      u32le p.x ++ u32le p.y ++ u32le p.width ++ u32le p.height ++
      (p.channel_offsets.map u64le).flatten ++
      (p.channel_strides.map u64le).flatten ++
      (p.data.map u32le).flatten := by
  by_cases g1 : p.channel_names.length = 0
  · simp [PacketUpdateImage.write_to, g1] at h
  by_cases g2 : p.channel_offsets.length = p.channel_names.length
  case neg => simp [PacketUpdateImage.write_to, g1, g2] at h
  by_cases g3 : p.channel_strides.length = p.channel_names.length
  case neg => simp [PacketUpdateImage.write_to, g1, g2, g3] at h
  by_cases g4 : p.width * p.height = 0
  · simp [PacketUpdateImage.write_to, g1, g2, g3, g4] at h
  by_cases g5 : maxDataIndexUsed p + 1 = p.data.length
  case neg => simp [PacketUpdateImage.write_to, g1, g2, g3, g4, g5] at h
  by_cases h1 : 0 ∈ p.image_name
  · simp [PacketUpdateImage.write_to, g1, g2, g3, g4, g5,
      writeStr_eq_err _ _ h1] at h
  by_cases h2 : ∀ s ∈ p.channel_names, ¬ 0 ∈ s
  · rw [updateImage_write_eq p w g1 g2 g3 g4 g5 h1 h2] at h
    exact ⟨g1, g2, g3, g4, g5, h1, h2, (Except.ok.inj h).symm⟩
  · push_neg at h2
    simp [PacketUpdateImage.write_to, g1, g2, g3, g4, g5,
      writeStr_eq_ok _ _ h1, writeStrAll_eq_err _ _ h2] at h

theorem write_to_ok_shape (p : TevPacket) (w v : List Nat)
    (h : p.write_to w = .ok v) : ∃ r, v = w ++ p.opcode :: r := by
  cases p with
  | openImage q =>
    by_cases h1 : 0 ∈ q.image_name
    · simp [TevPacket.write_to, PacketOpenImage.write_to,
        writeStr_eq_err _ _ h1] at h
    by_cases h2 : 0 ∈ q.channel_selector
    · simp [TevPacket.write_to, PacketOpenImage.write_to, writeBool,
        writePacketType, writeStr_eq_ok _ _ h1, writeStr_eq_err _ _ h2] at h
    simp only [TevPacket.write_to] at h
    rw [openImage_write_eq q w h1 h2] at h
    injection h with hv
    exact ⟨(if q.grab_focus then 1 else 0) ::
      (q.image_name ++ [0] ++ q.channel_selector ++ [0]), by
      rw [← hv]
      simp [TevPacket.opcode, PacketType.toByte, List.append_assoc]⟩
  | reloadImage q =>
    by_cases h1 : 0 ∈ q.image_name
    · simp [TevPacket.write_to, PacketReloadImage.write_to,
        writeStr_eq_err _ _ h1] at h
    simp only [TevPacket.write_to] at h
    rw [reloadImage_write_eq q w h1] at h
    injection h with hv
    exact ⟨(if q.grab_focus then 1 else 0) :: (q.image_name ++ [0]), by
      rw [← hv]
      simp [TevPacket.opcode, PacketType.toByte, List.append_assoc]⟩
  | closeImage q =>
    by_cases h1 : 0 ∈ q.image_name
    · simp [TevPacket.write_to, PacketCloseImage.write_to,
        writeStr_eq_err _ _ h1] at h
    simp only [TevPacket.write_to] at h
    rw [closeImage_write_eq q w h1] at h
    injection h with hv
    exact ⟨q.image_name ++ [0], by
      rw [← hv]
      simp [TevPacket.opcode, PacketType.toByte, List.append_assoc]⟩
  | createImage q =>
    by_cases h1 : 0 ∈ q.image_name
    · simp [TevPacket.write_to, PacketCreateImage.write_to,
        writeStr_eq_err _ _ h1] at h
    by_cases h2 : ∀ s ∈ q.channel_names, ¬ 0 ∈ s
    · simp only [TevPacket.write_to] at h
      rw [createImage_write_eq q w h1 h2] at h
      injection h with hv
      exact ⟨(if q.grab_focus then 1 else 0) :: (q.image_name ++ [0] ++
        u32le q.width ++ u32le q.height ++ u32le q.channel_names.length ++
        (q.channel_names.map (fun s => s ++ [0])).flatten), by
        rw [← hv]
        simp [TevPacket.opcode, PacketType.toByte, List.append_assoc]⟩
    · push_neg at h2
      simp [TevPacket.write_to, PacketCreateImage.write_to, writeBool,
        writePacketType, writeStr_eq_ok _ _ h1,
        writeStrAll_eq_err _ _ h2] at h
  | updateImage q =>
    obtain ⟨g1, g2, g3, g4, g5, h1, h2, hv⟩ := updateImage_ok_inv q w v h
    exact ⟨(if q.grab_focus then 1 else 0) :: (q.image_name ++ [0] ++
      u32le q.channel_names.length ++
      (q.channel_names.map (fun s => s ++ [0])).flatten ++
      u32le q.x ++ u32le q.y ++ u32le q.width ++ u32le q.height ++
      (q.channel_offsets.map u64le).flatten ++
      (q.channel_strides.map u64le).flatten ++
      (q.data.map u32le).flatten), by
      rw [hv]
      simp [TevPacket.opcode, PacketType.toByte, List.append_assoc]⟩

theorem send_ok_inv (p : TevPacket) (buf : List Nat)
    (h : TevClient.send p = .ok buf) :
    ∃ r, buf = u32le ((r.length + 5) % 4294967296) ++ p.opcode :: r ∧
      buf.length = r.length + 5 := by
  unfold TevClient.send at h
  cases hw : p.write_to [0, 0, 0, 0] with
  | error e => rw [hw] at h; exact absurd h (by simp [Except.map])
  | ok v =>
    rw [hw] at h
    simp only [Except.map] at h
    obtain ⟨r, hr⟩ := write_to_ok_shape p _ v hw
    injection h with hb
    refine ⟨r, ?_, ?_⟩
    · rw [← hb, hr]
      simp [u32le]
    · rw [← hb, hr]
      simp [u32le]

theorem bigData_length : bigData.length = 1073741824 := by
  rw [show bigData = List.replicate 1073741824 0 from rfl,
    List.length_replicate]

theorem big_write_eq :
    TevPacket.write_to (.updateImage bigUpdateImage) [0, 0, 0, 0] =
      .ok bigUpdateBody := by
  simp only [TevPacket.write_to]
  rw [updateImage_write_eq bigUpdateImage [0, 0, 0, 0]
    (by decide) (by decide) (by decide) (by decide)
    (by rw [show bigUpdateImage.data = bigData from rfl, bigData_length]
        decide)
    (by decide) (by decide)]
  exact congrArg Except.ok (by
    simp [bigUpdateBody, bigUpdateImage, List.append_assoc])

theorem big_body_length : bigUpdateBody.length = 4294967342 := by
  unfold bigUpdateBody
  simp only [List.length_append, flatten_u32le_length, bigData_length]
  norm_num [u32le, u64le]

theorem big_send :
    TevClient.send (.updateImage bigUpdateImage) =
      .ok (u32le 46 ++ bigUpdateBody.drop 4) := by
  have h1 : TevClient.send (.updateImage bigUpdateImage) =
      .ok (u32le (bigUpdateBody.length % 4294967296) ++
        bigUpdateBody.drop 4) := by
    unfold TevClient.send
    rw [big_write_eq]
    rfl
  rw [h1, big_body_length]


/-! Claim theorems. -/

/-- C4: the packet OpenImage with image_name "a.png" (bytes 97 46 112 110
103), grab_focus true and empty channel_selector encodes to exactly the
13-byte frame: length prefix 0D 00 00 00, opcode 0x07, byte 0x01, the
bytes of "a.png" followed by 0x00, and a single 0x00 for the empty
channel_selector. -/
theorem c4_openimage_scenario :
    TevClient.send (.openImage ⟨[97, 46, 112, 110, 103], true, []⟩) =
      .ok [13, 0, 0, 0, 7, 1, 97, 46, 112, 110, 103, 0, 0] ∧
    ([13, 0, 0, 0, 7, 1, 97, 46, 112, 110, 103, 0, 0] : List Nat).length =
      13 := ⟨rfl, rfl⟩

/-- C2: whenever send succeeds, the byte of the frame at index 4 (the
first byte after the length prefix) is the fixed opcode of the variant:
ReloadImage 1, CloseImage 2, CreateImage 4, UpdateImage 6, OpenImage 7. -/
theorem c2_opcode_byte (p : TevPacket) (buf : List Nat)
    (h : TevClient.send p = .ok buf) :
    buf[4]? = some (match p with
      | .reloadImage _ => 1
      | .closeImage _ => 2
      | .createImage _ => 4
      | .updateImage _ => 6
      | .openImage _ => 7) := by
  obtain ⟨r, hb, _⟩ := send_ok_inv p buf h
  rw [hb]
  cases p <;> simp [u32le, TevPacket.opcode, PacketType.toByte]

/-- Witness for C2 at a concrete CloseImage packet. -/
theorem c2_opcode_byte_witness :
    ([7, 0, 0, 0, 2, 120, 0] : List Nat)[4]? = some 2 :=
  c2_opcode_byte (.closeImage ⟨[120]⟩) [7, 0, 0, 0, 2, 120, 0] (by rfl)

/-- C10: the length prefix written by send is the buffer length reduced
modulo 2^32 (the `as u32` cast), so a frame longer than u32::MAX bytes
silently gets a truncated prefix; `c1_prefix_counterexample` exhibits
such a frame. -/
theorem c10_prefix_truncation (p : TevPacket) (buf : List Nat)
    (h : TevClient.send p = .ok buf) :
    buf.take 4 = u32le (buf.length % 4294967296) := by
  obtain ⟨r, hb, hlen⟩ := send_ok_inv p buf h
  have h4 : buf.take 4 = u32le ((r.length + 5) % 4294967296) := by
    rw [hb]
    simp [u32le]
  rw [h4, hlen]

/-- Witness for C10 at a concrete ReloadImage packet. -/
theorem c10_prefix_truncation_witness :
    ([8, 0, 0, 0, 1, 0, 116, 0] : List Nat).take 4 =
      u32le (([8, 0, 0, 0, 1, 0, 116, 0] : List Nat).length % 4294967296) :=
  c10_prefix_truncation (.reloadImage ⟨[116], false⟩)
    [8, 0, 0, 0, 1, 0, 116, 0] (by rfl)

/-- C1 (amended): whenever send succeeds and the frame is shorter than
2^32 bytes, the first 4 bytes read as a little-endian u32 equal the
total frame length, prefix included. The unamended claim fails for
frames of 2^32 bytes or more, where the prefix holds the length modulo
2^32 (see `c1_prefix_counterexample`). -/
theorem c1_prefix_equals_length (p : TevPacket) (buf : List Nat)
    (h : TevClient.send p = .ok buf) (hlt : buf.length < 4294967296) :
    u32leDecode (buf.take 4) = buf.length := by
  obtain ⟨r, hb, hlen⟩ := send_ok_inv p buf h
  have h4 : buf.take 4 = u32le ((r.length + 5) % 4294967296) := by
    rw [hb]
    simp [u32le]
  rw [hlen] at hlt
  rw [h4, u32leDecode_u32le, hlen]
  omega

/-- Witness for C1 at a concrete CloseImage packet. -/
theorem c1_prefix_equals_length_witness :
    u32leDecode (([7, 0, 0, 0, 2, 121, 0] : List Nat).take 4) =
      ([7, 0, 0, 0, 2, 121, 0] : List Nat).length :=
  c1_prefix_equals_length (.closeImage ⟨[121]⟩) [7, 0, 0, 0, 2, 121, 0]
    (by rfl) (by decide)

/-- Counterexample to C1 as stated: `bigUpdateImage` encodes successfully
to a frame of 4294967342 bytes (2^32 + 46), but the length prefix decodes
to 46, not to the frame length. -/
theorem take4_cons4 (a b c d : Nat) (rest : List Nat) :
    (a :: b :: c :: d :: rest).take 4 = [a, b, c, d] := rfl

theorem c1_prefix_counterexample :
    TevClient.send (.updateImage bigUpdateImage) = .ok bigFrame ∧
    u32leDecode (bigFrame.take 4) ≠ bigFrame.length := by
  refine ⟨big_send, ?_⟩
  have htake : bigFrame.take 4 = [46, 0, 0, 0] := by
    rw [show bigFrame = u32le 46 ++ bigUpdateBody.drop 4 from rfl,
      show u32le 46 = [46, 0, 0, 0] from rfl]
    exact take4_cons4 46 0 0 0 (bigUpdateBody.drop 4)
  have hlen : bigFrame.length = 4294967342 := by
    rw [show bigFrame = u32le 46 ++ bigUpdateBody.drop 4 from rfl,
      List.length_append, List.length_drop, big_body_length,
      show (u32le 46).length = 4 from rfl]
  rw [htake, hlen]
  rw [show u32leDecode [46, 0, 0, 0] = 46 from rfl]
  omega

/-- C6: a string containing a null byte makes the string write primitive
fail with InvalidString without appending anything (the check precedes
the append), and a packet carrying such a string sends nothing: the
whole encode fails with InvalidString and no bytes reach the stream. -/
theorem c6_null_string (w s name : List Nat) (hs : 0 ∈ s) (hn : 0 ∈ name) :
    writeStr w s = .error .invalidString ∧
    TevClient.send (.closeImage ⟨name⟩) = .error .invalidString := by
  refine ⟨writeStr_eq_err w s hs, ?_⟩
  unfold TevClient.send
  simp [TevPacket.write_to, PacketCloseImage.write_to,
    writeStr_eq_err _ _ hn, Except.map]

/-- Witness for C6 at the one-byte null string. -/
theorem c6_null_string_witness :
    writeStr [] [0] = .error .invalidString ∧
    TevClient.send (.closeImage ⟨[0]⟩) = .error .invalidString :=
  c6_null_string [] [0] [0] (by decide) (by decide)

/-- C7: an UpdateImage packet whose three channel arrays do not have equal
non-zero lengths, or whose 64-bit pixel count width*height is zero, fails
to encode with InvalidPacket for every writer state, and send emits
nothing for it. -/
theorem c7_update_validation (p : PacketUpdateImage) (w : List Nat)
    (h : ¬ (p.channel_names.length = p.channel_offsets.length ∧
            p.channel_names.length = p.channel_strides.length ∧
            p.channel_names.length ≠ 0) ∨
         p.width * p.height = 0) :
    p.write_to w = .error .invalidPacket ∧
    TevClient.send (.updateImage p) = .error .invalidPacket := by
  have hall : ∀ w' : List Nat, p.write_to w' = .error .invalidPacket := by
    intro w'
    by_cases g1 : p.channel_names.length = 0
    · simp [PacketUpdateImage.write_to, g1]
    by_cases g2 : p.channel_offsets.length = p.channel_names.length
    case neg => simp [PacketUpdateImage.write_to, g1, g2]
    by_cases g3 : p.channel_strides.length = p.channel_names.length
    case neg => simp [PacketUpdateImage.write_to, g1, g2, g3]
    rcases h with hc | h4
    · exact absurd ⟨g2.symm, g3.symm, g1⟩ hc
    · simp [PacketUpdateImage.write_to, g1, g2, g3, h4]
  refine ⟨hall w, ?_⟩
  unfold TevClient.send
  rw [show TevPacket.write_to (.updateImage p) [0, 0, 0, 0] =
    p.write_to [0, 0, 0, 0] from rfl, hall]
  rfl

/-- Witness for C7 at a packet with mismatched channel array lengths. -/
theorem c7_update_validation_witness :
    PacketUpdateImage.write_to
      ⟨[110], false, [[82], [71]], [0], [0, 1], 0, 0, 1, 1, []⟩ [] =
      .error .invalidPacket ∧
    TevClient.send (.updateImage
      ⟨[110], false, [[82], [71]], [0], [0, 1], 0, 0, 1, 1, []⟩) =
      .error .invalidPacket :=
  c7_update_validation
    ⟨[110], false, [[82], [71]], [0], [0, 1], 0, 0, 1, 1, []⟩ []
    (Or.inl (by decide))

theorem foldl_max_map_succ (l : List Nat) : ∀ (a : Nat),
    (l.map (fun x => x + 1)).foldl Nat.max (a + 1) =
      l.foldl Nat.max a + 1 := by
  induction l with
  | nil => intro a; simp
  | cons x t ih =>
    intro a
    have hmax : Nat.max (a + 1) (x + 1) = Nat.max a x + 1 :=
      Nat.succ_max_succ a x
    simp only [List.map_cons, List.foldl_cons, hmax, ih]

theorem claim_max_eq (l : List Nat) (hl : l ≠ []) :
    (l.map (fun x => x + 1)).foldl Nat.max 0 =
      l.foldl Nat.max 0 + 1 := by
  cases l with
  | nil => exact absurd rfl hl
  | cons y ys =>
    simp only [List.map_cons, List.foldl_cons, Nat.zero_max]
    exact foldl_max_map_succ ys y

/-- C8: a successful UpdateImage encode forces the maximum over all
channels of offset + (width*height - 1) * stride + 1 to equal the data
length exactly; concretely, the one-channel 3-by-1 packet with offset 0
and stride 1 encodes with 3 data elements and fails with InvalidPacket
with 2. -/
theorem c8_update_data_size (p : PacketUpdateImage) (w v : List Nat)
    (h : p.write_to w = .ok v) :
    ((p.channel_offsets.zip p.channel_strides).map
      (fun os => os.1 + (p.width * p.height - 1) * os.2 + 1)).foldl
      Nat.max 0 = p.data.length ∧
    (PacketUpdateImage.write_to
      ⟨[110], true, [[82]], [0], [1], 0, 0, 3, 1, [0, 0, 0]⟩ []).isOk =
      true ∧
    PacketUpdateImage.write_to
      ⟨[110], true, [[82]], [0], [1], 0, 0, 3, 1, [0, 0]⟩ [] =
      .error .invalidPacket := by
  obtain ⟨g1, g2, g3, g4, g5, _, _, _⟩ := updateImage_ok_inv p w v h
  refine ⟨?_, by rfl, by rfl⟩
  have hzip : p.channel_offsets.zip p.channel_strides ≠ [] := by
    intro hnil
    have hlz := congrArg List.length hnil
    rw [List.length_zip, g2, g3] at hlz
    simp at hlz
    exact g1 (by simp [hlz])
  have hmm : ((p.channel_offsets.zip p.channel_strides).map
      (fun os => os.1 + (p.width * p.height - 1) * os.2 + 1)) =
      (((p.channel_offsets.zip p.channel_strides).map
        (fun os => os.1 + (p.width * p.height - 1) * os.2)).map
        (fun x => x + 1)) := by
    rw [List.map_map]
    rfl
  rw [hmm, claim_max_eq _ (by simpa using hzip)]
  exact g5

/-- Witness for C8 at the concrete 3-pixel one-channel packet. -/
theorem c8_update_data_size_witness :
    ((([0] : List Nat).zip [1]).map
      (fun os => os.1 + (3 * 1 - 1) * os.2 + 1)).foldl Nat.max 0 =
      ([0, 0, 0] : List Nat).length ∧
    (PacketUpdateImage.write_to
      ⟨[110], true, [[82]], [0], [1], 0, 0, 3, 1, [0, 0, 0]⟩ []).isOk =
      true ∧
    PacketUpdateImage.write_to
      ⟨[110], true, [[82]], [0], [1], 0, 0, 3, 1, [0, 0]⟩ [] =
      .error .invalidPacket :=
  c8_update_data_size ⟨[110], true, [[82]], [0], [1], 0, 0, 3, 1, [0, 0, 0]⟩
    []
    [6, 1, 110, 0, 1, 0, 0, 0, 82, 0, 0, 0, 0, 0, 0, 0, 0, 0, 3, 0, 0, 0,
     1, 0, 0, 0, 0, 0, 0, 0, 0, 0, 0, 0, 1, 0, 0, 0, 0, 0, 0, 0, 0, 0, 0,
     0, 0, 0, 0, 0, 0, 0, 0, 0]
    (by rfl)

/-- C3: for every UpdateImage packet passing validation with null-free
strings, the bytes after the opcode are exactly grab_focus, image_name
null-terminated, channel_count as u32, the channel names null-terminated
in order, x, y, width, height as u32, the channel offsets as u64, the
channel strides as u64, and the data elements as little-endian f32. -/
theorem c3_update_payload_order (p : PacketUpdateImage) (w : List Nat)
    (g1 : p.channel_names.length ≠ 0)
    (g2 : p.channel_offsets.length = p.channel_names.length)
    (g3 : p.channel_strides.length = p.channel_names.length)
    (g4 : p.width * p.height ≠ 0)
    (g5 : maxDataIndexUsed p + 1 = p.data.length)
    (h1 : ¬ 0 ∈ p.image_name) (h2 : ∀ s ∈ p.channel_names, ¬ 0 ∈ s) :
    p.write_to w = .ok (w ++ [6] ++ [if p.grab_focus then 1 else 0] ++
      p.image_name ++ [0] ++ u32le p.channel_names.length ++
      (p.channel_names.map (fun s => s ++ [0])).flatten ++
      u32le p.x ++ u32le p.y ++ u32le p.width ++ u32le p.height ++
      (p.channel_offsets.map u64le).flatten ++
      (p.channel_strides.map u64le).flatten ++
      (p.data.map u32le).flatten) :=
  updateImage_write_eq p w g1 g2 g3 g4 g5 h1 h2

/-- Witness for C3 at the concrete 3-pixel one-channel packet. -/
theorem c3_update_payload_order_witness :
    PacketUpdateImage.write_to
      ⟨[110], true, [[82]], [0], [1], 0, 0, 3, 1, [0, 0, 0]⟩ [] =
      .ok [6, 1, 110, 0, 1, 0, 0, 0, 82, 0, 0, 0, 0, 0, 0, 0, 0, 0, 3, 0,
        0, 0, 1, 0, 0, 0, 0, 0, 0, 0, 0, 0, 0, 0, 1, 0, 0, 0, 0, 0, 0, 0,
        0, 0, 0, 0, 0, 0, 0, 0, 0, 0, 0, 0] :=
  c3_update_payload_order
    ⟨[110], true, [[82]], [0], [1], 0, 0, 3, 1, [0, 0, 0]⟩ []
    (by decide) (by decide) (by decide) (by decide) (by decide)
    (by decide) (by decide)

theorem parseCStr_append (name rest : List Nat) (hn : ¬ 0 ∈ name) :
    parseCStr (name ++ 0 :: rest) = some (name, rest) := by
  induction name with
  | nil => simp [parseCStr]
  | cons b t ih =>
    have hb : b ≠ 0 := fun h => hn (by simp [h])
    have ht : ¬ 0 ∈ t := fun h => hn (by simp [h])
    simp [parseCStr, hb, ih ht]

/-- C5: encoding CreateImage with channel names R, G, B, width 4 and
height 2, then decoding the payload per the spec's layout table, recovers
every original field value exactly, consuming the whole payload. -/
theorem c5_createimage_roundtrip (name : List Nat) (gf : Bool)
    (hn : ¬ 0 ∈ name) :
    decodeCreateImagePayload
      (createImagePayload ⟨name, gf, 4, 2, [[82], [71], [66]]⟩) =
      some (⟨name, gf, 4, 2, [[82], [71], [66]]⟩, []) := by
  have h2 : ∀ s ∈ ([[82], [71], [66]] : List (List Nat)), ¬ 0 ∈ s := by
    decide
  have henc := createImage_write_eq ⟨name, gf, 4, 2, [[82], [71], [66]]⟩
    [] hn h2
  unfold createImagePayload
  rw [henc]
  cases gf <;>
    simp [u32le, decodeCreateImagePayload, parseCStr_append _ _ hn,
      parseU32, parseCStrs, parseCStr]

/-- Witness for C5 at the image name "img". -/
theorem c5_createimage_roundtrip_witness :
    decodeCreateImagePayload
      (createImagePayload ⟨[105, 109, 103], true, 4, 2,
        [[82], [71], [66]]⟩) =
      some (⟨[105, 109, 103], true, 4, 2, [[82], [71], [66]]⟩, []) :=
  c5_createimage_roundtrip [105, 109, 103] true (by decide)

theorem findHostInLine_none (line : List Char) :
    ∀ pats : List (List Char), (∀ pat ∈ pats, findSub pat line = none) →
    findHostInLine line pats = none := by
  intro pats
  induction pats with
  | nil => intro _; rfl
  | cons pat rest ih =>
    intro h
    have hp := h pat (by simp)
    simp [findHostInLine, hp, ih (fun q hq => h q (by simp [hq]))]

theorem spawnLoop_none : ∀ (lines : List (List Char)) (read : List Char),
    (∀ l ∈ lines, ∀ pat ∈ spawnPatterns, findSub pat l = none) →
    spawnLoop read lines = .noSocketResponse
      (read ++ (lines.map (fun l => l ++ [newlineChar])).flatten) := by
  intro lines
  induction lines with
  | nil => intro read _; simp [spawnLoop]
  | cons line rest ih =>
    intro read h
    have hl : findHostInLine line spawnPatterns = none :=
      findHostInLine_none line spawnPatterns (h line (by simp))
    simp [spawnLoop, hl, ih _ (fun l hl2 => h l (by simp [hl2])),
      List.append_assoc]

/-- C9: when no line of the spawned process's standard output contains
either known pattern before the stream ends, spawn fails with the
NoSocketResponse error (the spec's NoAddressFound), and the error carries
all the text read so far: every line followed by its newline. -/
theorem c9_spawn_no_address (lines : List (List Char))
    (h : ∀ l ∈ lines, ∀ pat ∈ spawnPatterns, findSub pat l = none) :
    TevClient.spawn lines = .noSocketResponse
      ((lines.map (fun l => l ++ [newlineChar])).flatten) := by
  have hs := spawnLoop_none lines [] h
  simpa [TevClient.spawn] using hs

/-- Witness for C9 at a single output line "hi". -/
theorem c9_spawn_no_address_witness :
    TevClient.spawn [['h', 'i']] =
      .noSocketResponse ((([['h', 'i']] : List (List Char)).map
        (fun l => l ++ [newlineChar])).flatten) :=
  c9_spawn_no_address [['h', 'i']] (by decide)
